import Mathlib

/-!
Verification of the ManageAWS tenant-management backend.

This file gives a shallow embedding of the core of the backend
(`backend/app/services/k8s_client.py`, `tenant_service.py`,
`metrics_service.py`, `scheduler.py`, `schedule_service.py`) and proves
properties of the embedded operations.  Python `int` replica counts are
modelled as `Nat` (they are never negative in these code paths), timestamps
as `Int` seconds, and Kubernetes API failures as `Except` values.
-/

namespace ManageAWS

/-! ## Kubernetes client model (`app/services/k8s_client.py`)

A replica-controlled workload (Deployment or StatefulSet).  The source keeps
a string annotation `tenant-management/original-replicas` on the resource;
the only writer is the scale routine itself, which stores `str(current)`,
and the only reader parses it back with `int(...)`.  Since `str`/`int` is a
bijection on the written values, the annotation slot is modelled directly as
the decoded `Option Nat`. -/
structure ReplicaWorkload where
  /-- `spec.replicas` of the resource. -/
  replicas : Nat
  /-- decoded value of the `tenant-management/original-replicas` annotation,
  `none` when the annotation is absent. -/
  origReplicasAnn : Option Nat
deriving DecidableEq, Repr

/-- `KubernetesClient.scale_deployment` (k8s_client.py lines 96-159), state
transformation part: read `current_replicas`; if scaling to 0 from a positive
count, first persist the current count into the annotation; if scaling up
from 0 and the annotation exists, override the requested count with the
stored value; then apply the (possibly overridden) count via the scale
sub-resource. -/
def scale_deployment (d : ReplicaWorkload) (replicas : Nat) : ReplicaWorkload :=
  let current := d.replicas
  let d1 := if replicas = 0 ∧ 0 < current then
      { d with origReplicasAnn := some current }
    else d
  let target := if 0 < replicas ∧ current = 0 then
      match d1.origReplicasAnn with
      | some stored => stored
      | none => replicas
    else replicas
  { d1 with replicas := target }

/-- `KubernetesClient.scale_statefulset` (k8s_client.py lines 161-224):
identical algorithm to `scale_deployment`, issued against the StatefulSet
API. -/
def scale_statefulset (s : ReplicaWorkload) (replicas : Nat) : ReplicaWorkload :=
  let current := s.replicas
  let s1 := if replicas = 0 ∧ 0 < current then
      { s with origReplicasAnn := some current }
    else s
  let target := if 0 < replicas ∧ current = 0 then
      match s1.origReplicasAnn with
      | some stored => stored
      | none => replicas
    else replicas
  { s1 with replicas := target }

/-- The unsatisfiable node selector the source writes to stop a DaemonSet:
`tenant-management/stopped: true` (no node carries this label). -/
def stopSelector : List (String × String) := [("tenant-management/stopped", "true")]

/-- A DaemonSet.  `nodeSelector` models `spec.template.spec.node_selector`
(`none` when the field is absent, `some []` when it is an empty map — both
are falsy in Python).  `origSelectorAnn` models the
`tenant-management/original-node-selector` annotation; the source stores the
selector JSON-encoded (`json.dumps`) and the empty-marker string for a falsy
selector, and decodes with `json.loads`; since JSON encoding is a bijection
on string-to-string maps and the empty marker decodes to the empty map, the
slot is modelled as the decoded `Option (List (String × String))` (`none` =
annotation absent, `some []` = empty marker). -/
structure DaemonWorkload where
  nodeSelector : Option (List (String × String))
  origSelectorAnn : Option (List (String × String))
deriving DecidableEq, Repr

/-- Python truthiness of a node-selector value: `None` and the empty map are
falsy. -/
def selTruthy : Option (List (String × String)) → Bool
  | none => false
  | some sel => !sel.isEmpty

/-- `KubernetesClient.scale_daemonset` (k8s_client.py lines 226-301).
`stop = true`: store the current selector in the annotation when it is
truthy, otherwise store the empty marker, then replace the selector with the
unsatisfiable `stopSelector`.  `stop = false`: if the annotation exists,
restore the decoded selector when truthy, set the selector to `None`
otherwise, and delete the annotation; if no annotation exists, just clear
the selector. -/
def scale_daemonset (ds : DaemonWorkload) (stop : Bool) : DaemonWorkload :=
  if stop then
    let saved : List (String × String) :=
      match ds.nodeSelector with
      | some sel => if sel.isEmpty then [] else sel
      | none => []
    { nodeSelector := some stopSelector, origSelectorAnn := some saved }
  else
    match ds.origSelectorAnn with
    | some orig =>
      { nodeSelector := if orig.isEmpty then none else some orig,
        origSelectorAnn := none }
    | none =>
      { nodeSelector := none, origSelectorAnn := ds.origSelectorAnn }

/-- Concrete DaemonSet used to exhibit the double-stop defect: original
placement selector `disk: ssd`, no annotation. -/
def dsExample : DaemonWorkload :=
  { nodeSelector := some [("disk", "ssd")], origSelectorAnn := none }

/-- A Kubernetes API exception, as observed by the client code (only the
HTTP status matters to the handlers). -/
structure ApiError where
  status : Nat
deriving DecidableEq, Repr

/-- Raw data of one Deployment or StatefulSet as returned by the list API. -/
structure ReplicaSetInfo where
  name : String
  replicas : Nat
  available_replicas : Nat
  ready_replicas : Nat
deriving DecidableEq, Repr

/-- Raw data of one DaemonSet as returned by the list API. -/
structure DaemonSetInfo where
  name : String
  nodeSelector : Option (List (String × String))
  desired_number_scheduled : Nat
  number_available : Nat
  number_ready : Nat
deriving DecidableEq, Repr

/-- The three list responses used by `list_namespace_deployments`. -/
structure NsContents where
  deployments : List ReplicaSetInfo
  statefulsets : List ReplicaSetInfo
  daemonsets : List DaemonSetInfo
deriving DecidableEq, Repr

/-- One entry of the inventory returned by `list_namespace_deployments`
(the per-resource dict; `is_stopped` is present only for DaemonSets). -/
structure ResourceSummary where
  name : String
  rtype : String
  replicas : Nat
  available_replicas : Nat
  ready_replicas : Nat
  is_stopped : Option Bool
deriving DecidableEq, Repr

/-- Lookup in a string-to-string map (Python `dict.get`). -/
def lookupKV (l : List (String × String)) (k : String) : Option String :=
  (l.find? (fun p => p.1 == k)).map (fun p => p.2)

/-- `KubernetesClient.list_namespace_deployments` (k8s_client.py lines
367-431): builds the inventory of Deployments, StatefulSets and DaemonSets
of a namespace.  `api` is the outcome of the underlying list calls: an
`ApiException` from any of them reaches the handler, which returns an empty
list when the status is 404 and re-raises otherwise.  A DaemonSet is
`is_stopped` iff its node selector is truthy and maps
`tenant-management/stopped` to `true`. -/
def list_namespace_deployments (api : Except ApiError NsContents) :
    Except ApiError (List ResourceSummary) :=
  match api with
  | .error e => if e.status = 404 then .ok [] else .error e
  | .ok c =>
    .ok ((c.deployments.map fun d =>
        { name := d.name, rtype := "Deployment", replicas := d.replicas,
          available_replicas := d.available_replicas,
          ready_replicas := d.ready_replicas, is_stopped := none })
      ++ (c.statefulsets.map fun s =>
        { name := s.name, rtype := "StatefulSet", replicas := s.replicas,
          available_replicas := s.available_replicas,
          ready_replicas := s.ready_replicas, is_stopped := none })
      ++ (c.daemonsets.map fun ds =>
        { name := ds.name, rtype := "DaemonSet",
          replicas := ds.desired_number_scheduled,
          available_replicas := ds.number_available,
          ready_replicas := ds.number_ready,
          is_stopped := some (match ds.nodeSelector with
            | some sel =>
              if sel.isEmpty then false
              else lookupKV sel "tenant-management/stopped" == some "true"
            | none => false) }))

/-- Identity of one workload resource as seen by the `scale_namespace`
loop (the `name` and `type` keys of an inventory entry). -/
structure WorkloadRef where
  name : String
  rtype : String
deriving DecidableEq, Repr

/-- One entry of the per-resource result list of `scale_namespace`.
A success entry carries `replicas` = the target for Deployments and
StatefulSets and no value for DaemonSets (the source puts the string
N/A there); a failure entry carries the stringified exception in `error`
and no `replicas` key. -/
structure ScaleEntry where
  resource : String
  rtype : String
  success : Bool
  replicas : Option Nat
  error : Option String
deriving DecidableEq, Repr

/-- The aggregate report returned by `scale_namespace`. -/
structure NamespaceScaleReport where
  ns : String
  target_replicas : Nat
  total_resources : Nat
  results : List ScaleEntry
deriving DecidableEq, Repr

/-- `KubernetesClient.scale_namespace` (k8s_client.py lines 433-495): list
the namespace inventory, then for each resource dispatch on its kind and
invoke the matching scale call inside a per-resource try/except, recording
a success entry or an entry with `success=false` and the stringified
exception, and continuing with the remaining resources.  Resources of an
unknown kind are skipped without a result entry (`continue`).  `outcome`
stands for the behaviour of the underlying per-resource scale call
(`.error` = the call raised).  An error from the inventory itself escapes
the outer try and re-raises. -/
def scale_namespace (ns : String) (replicas : Nat)
    (inventory : Except ApiError (List WorkloadRef))
    (outcome : WorkloadRef → Except String Unit) :
    Except ApiError NamespaceScaleReport :=
  match inventory with
  | .error e => .error e
  | .ok resources =>
    let results := resources.foldl (fun acc res =>
      if res.rtype = "Deployment" ∨ res.rtype = "StatefulSet" ∨ res.rtype = "DaemonSet" then
        acc ++ [match outcome res with
          | .ok _ =>
            { resource := res.name, rtype := res.rtype, success := true,
              replicas := if res.rtype = "DaemonSet" then none else some replicas,
              error := none }
          | .error e =>
            { resource := res.name, rtype := res.rtype, success := false,
              replicas := none, error := some e }]
      else acc) []
    .ok { ns := ns, target_replicas := replicas,
          total_resources := resources.length, results := results }

/-! ## Tenant service model (`app/services/tenant_service.py`,
`app/models/tenant.py`, `app/models/tenant_state_history.py`,
`app/services/schedule_service.py`) -/

/-- `StateType` (tenant_state_history.py lines 12-17). -/
inductive StateType where
  | running
  | stopped
  | scaling
  | unknown
deriving DecidableEq, Repr

/-- Derivation of `previous_state` inside
`TenantService._record_state_change` (tenant_service.py lines 473-479):
`None` when there is no previous replica count, otherwise the coarse
0-vs-positive rule. -/
def record_previous_state (previous_replicas : Option Nat) : Option StateType :=
  match previous_replicas with
  | none => none
  | some p => if p = 0 then StateType.stopped else StateType.running

/-- Derivation of `new_state` inside `TenantService._record_state_change`
(tenant_service.py lines 481-488): `new_replicas == 0` gives `stopped`, any
positive count gives `running` (the source comment reads: for now, consider
it RUNNING when replicas > 0). -/
def record_new_state (new_replicas : Nat) : StateType :=
  if new_replicas = 0 then StateType.stopped else StateType.running

/-- Modelled from the spec: the fine-grained destination-state rule of
spec section 4.3 (no workloads discovered maps to unknown, `new_replicas == 0`
to stopped, positive with ready < desired to scaling, positive with all
ready to running), written here only to compare against the rule the
recorder actually implements; no function in
`TenantService._record_state_change` takes readiness into account. -/
def spec_new_state (workloadsFound : Bool) (new_replicas ready desired : Nat) :
    StateType :=
  if !workloadsFound then StateType.unknown
  else if new_replicas = 0 then StateType.stopped
  else if ready < desired then StateType.scaling
  else StateType.running

/-- One row of `tenant_state_history`. -/
structure HistoryRecord where
  tenant_id : Nat
  previous_state : Option StateType
  new_state : StateType
  previous_replicas : Option Nat
  new_replicas : Nat
  changed_at : Int
  changed_by : String
  reason : String
deriving DecidableEq, Repr

/-- `TenantService._record_state_change` (tenant_service.py lines 464-502):
derive the two states and append a row iff the states differ or there is no
previous state (the Python condition `previous_state != new_state or
previous_state is None`). -/
def record_state_change (history : List HistoryRecord) (tenant_id : Nat)
    (previous_replicas : Option Nat) (new_replicas : Nat) (changed_by : String)
    (reason : String) (now : Int) : List HistoryRecord :=
  let previous_state := record_previous_state previous_replicas
  let new_state := record_new_state new_replicas
  if previous_state ≠ some new_state ∨ previous_state = none then
    history ++ [{ tenant_id := tenant_id, previous_state := previous_state,
                  new_state := new_state, previous_replicas := previous_replicas,
                  new_replicas := new_replicas, changed_at := now,
                  changed_by := changed_by, reason := reason }]
  else history

/-- One row of the `tenants` table (tenant.py lines 21-45); only the
columns the modelled operations touch.  The column defaults are
`current_replicas = 0` and `desired_replicas = 1`. -/
structure TenantRow where
  id : Nat
  name : String
  ns : String
  current_replicas : Nat
  desired_replicas : Nat
  last_scaled_at : Option Int
  last_scaled_by : Option String
deriving DecidableEq, Repr

/-- The relational state the modelled operations read and write. -/
structure Db where
  tenants : List TenantRow
  history : List HistoryRecord
deriving DecidableEq, Repr

/-- The row mutation `scale_tenant` performs on a pre-existing tenant row
(tenant_service.py lines 364-365): stamp `last_scaled_at` and
`last_scaled_by`; no other column is assigned. -/
def stamp_scaled (row : TenantRow) (now : Int) (userSub : String) : TenantRow :=
  { row with last_scaled_at := some now, last_scaled_by := some userSub }

/-- Database effect of `TenantService.scale_tenant` (tenant_service.py
lines 317-407), after the cluster scale succeeded: look the tenant row up
by namespace; if absent, create it with the column defaults (so
`previous_replicas` stays `None`); if present, read `previous_replicas`
from its `current_replicas` column; stamp `last_scaled_at`/`last_scaled_by`;
then run `_record_state_change` with `new_replicas` equal to the
caller-supplied target.  `current_replicas` is never written. -/
def scale_tenant_db (db : Db) (ns : String) (replicas : Nat) (userSub : String)
    (now : Int) (newId : Nat) : Db :=
  match db.tenants.find? (fun t => t.ns == ns) with
  | some row =>
    let previous_replicas := some row.current_replicas
    let row1 := stamp_scaled row now userSub
    { tenants := db.tenants.map (fun t => if t.id == row.id then row1 else t),
      history := record_state_change db.history row.id previous_replicas replicas
        userSub ("Scale to " ++ toString replicas ++ " replicas") now }
  | none =>
    let row1 : TenantRow :=
      { id := newId, name := ns, ns := ns, current_replicas := 0,
        desired_replicas := 1, last_scaled_at := some now,
        last_scaled_by := some userSub }
    { tenants := db.tenants ++ [row1],
      history := record_state_change db.history newId none replicas
        userSub ("Scale to " ++ toString replicas ++ " replicas") now }

/-- Tenant-row side effect of `ScheduleService.create_schedule`
(schedule_service.py lines 79-98): when a schedule is created for a
namespace with no tenant row, a minimal row is auto-created with the column
defaults (`current_replicas = 0`); no state-history record is written. -/
def create_schedule_db (db : Db) (ns : String) (newId : Nat) : Db :=
  match db.tenants.find? (fun t => t.ns == ns) with
  | some _ => db
  | none =>
    { db with tenants := db.tenants ++
        [{ id := newId, name := ns, ns := ns, current_replicas := 0,
           desired_replicas := 1, last_scaled_at := none, last_scaled_by := none }] }

/-- The empty database. -/
def dbEmpty : Db := { tenants := [], history := [] }

/-! ## Metrics engine model (`app/services/metrics_service.py`)

Timestamps are seconds as `Int`; the source computes with UTC datetimes and
`total_seconds()`, which is exact on whole seconds.  The window bounds
(month start, month end clipped to now) are parameters here, as the claims
quantify over the window directly. -/

/-- One state transition as read by the metrics engine (the engine reads
only `changed_at` and `new_state`; the other fields are carried to match
the records of the scenario). -/
structure StateRecord where
  previous_state : Option StateType
  new_state : StateType
  new_replicas : Nat
  changed_at : Int
deriving DecidableEq, Repr

/-- The three duration accumulators of `get_monthly_uptime_downtime`. -/
structure Buckets where
  uptime : Int
  downtime : Int
  scal : Int
deriving DecidableEq, Repr

/-- Accumulation step (metrics_service.py lines 151-157 and 166-171):
`running` and `scaling` accrue to uptime, `scaling` also to the scaling
bucket, `stopped` accrues to downtime, `unknown` to neither. -/
def addDuration (st : StateType) (d : Int) (b : Buckets) : Buckets :=
  match st with
  | StateType.running => { b with uptime := b.uptime + d }
  | StateType.scaling => { b with uptime := b.uptime + d, scal := b.scal + d }
  | StateType.stopped => { b with downtime := b.downtime + d }
  | StateType.unknown => b

/-- The initial-state scan of `get_monthly_uptime_downtime`
(metrics_service.py lines 120-131), recursive form of the Python
for/else loop: walk the (ascending) history carrying the previously seen
record's `new_state`; at the first record with `changed_at >= windowStart`
return what was carried (None when that record is the head); when the list
is exhausted without such a record, the carried value is the last record's
`new_state` (None for an empty history), matching the for-else branch. -/
def findInitialAux (prev : Option StateType) (ws : Int) :
    List StateRecord → Option StateType
  | [] => prev
  | s :: rest =>
    if ws ≤ s.changed_at then prev else findInitialAux (some s.new_state) ws rest

/-- State in effect at the window start, as computed by the source scan. -/
def findInitialState (history : List StateRecord) (ws : Int) : Option StateType :=
  findInitialAux none ws history

/-- The transition walk of `get_monthly_uptime_downtime`
(metrics_service.py lines 137-161): skip records before the window start,
break past the window end, otherwise accrue the elapsed time in the state
active before the record and advance.  Returns the final cursor time, the
final state and the buckets. -/
def processChanges (ws we : Int) :
    List StateRecord → Int → StateType → Buckets → Int × StateType × Buckets
  | [], t, st, b => (t, st, b)
  | s :: rest, t, st, b =>
    if s.changed_at < ws then processChanges ws we rest t st b
    else if we < s.changed_at then (t, st, b)
    else processChanges ws we rest s.changed_at s.new_state
      (addDuration st (s.changed_at - t) b)

/-- Python `round(x, 2)` on the exact rational value: round to an integer
number of hundredths.  Python rounds binary floats half-to-even; on the
values proved here the argument is never at an exact half, where all
rounding modes agree. -/
def round2 (q : ℚ) : ℚ := (round (q * 100) : ℤ) / 100

/-- The fields of the monthly report relevant to the claims. -/
structure MonthlyReport where
  uptime_seconds : Int
  downtime_seconds : Int
  scaling_seconds : Int
  uptime_percentage : ℚ
  downtime_percentage : ℚ
  total_seconds : Int
deriving DecidableEq, Repr

/-- Duration accumulation of `MetricsService.get_monthly_uptime_downtime`
(metrics_service.py lines 115-171): compute the initial state (defaulting
to `stopped`), walk the in-window transitions, and attribute the remaining
time up to the window end to the final state. -/
def monthly_buckets (hist : List StateRecord) (ws we : Int) : Buckets :=
  let initial := (findInitialState hist ws).getD StateType.stopped
  let res := processChanges ws we hist ws initial ⟨0, 0, 0⟩
  if res.1 < we then addDuration res.2.1 (we - res.1) res.2.2 else res.2.2

/-- `MetricsService.get_monthly_uptime_downtime` (metrics_service.py lines
59-191) for a window `[ws, we]`: fetch the transitions with
`changed_at <= we` in ascending order (`history` is assumed ascending, as
delivered by the ORDER BY); with no history the whole window is downtime
with percentages 0/100; otherwise accumulate the buckets and report them
with percentages `bucket / (uptime + downtime) * 100` rounded to 2
decimals, or 0 when that denominator is not positive. -/
def get_monthly_uptime_downtime (history : List StateRecord) (ws we : Int) :
    MonthlyReport :=
  let hist := history.filter (fun s => s.changed_at ≤ we)
  if hist.isEmpty then
    let total := we - ws
    { uptime_seconds := 0, downtime_seconds := total, scaling_seconds := 0,
      uptime_percentage := 0, downtime_percentage := 100, total_seconds := total }
  else
    let b1 := monthly_buckets hist ws we
    let total := b1.uptime + b1.downtime
    { uptime_seconds := b1.uptime, downtime_seconds := b1.downtime,
      scaling_seconds := b1.scal,
      uptime_percentage :=
        if 0 < total then round2 ((b1.uptime : ℚ) / (total : ℚ) * 100) else 0,
      downtime_percentage :=
        if 0 < total then round2 ((b1.downtime : ℚ) / (total : ℚ) * 100) else 0,
      total_seconds := total }

/-- The transition log of the scenario in claim C2, with `t0 = 0`:
a transition to `running` with 3 replicas at `t0`, and a transition to
`stopped` with 0 replicas two hours later. -/
def c2history : List StateRecord :=
  [{ previous_state := some StateType.unknown, new_state := StateType.running,
     new_replicas := 3, changed_at := 0 },
   { previous_state := some StateType.running, new_state := StateType.stopped,
     new_replicas := 0, changed_at := 7200 }]

/-! ## Scheduler model (`app/services/scheduler.py`) -/

/-- One row of the `schedules` table; only the execution-tracking columns
the modelled code writes (`last_run_status` is `VARCHAR(50)`). -/
structure ScheduleRow where
  id : Nat
  last_run_at : Option Int
  last_run_status : Option String
  next_run_at : Option Int
deriving DecidableEq, Repr

/-- How an optional error message renders inside the Python f-string
`failed: ...` (`None` prints as the text None). -/
def pyStr : Option String → String
  | none => "None"
  | some s => s

/-- `SchedulerManager._update_schedule_status` (scheduler.py lines
230-259): when the schedule row exists, stamp `last_run_at` with the
current time, set `last_run_status` to the status message (`success`, or
`failed: <reason>`) truncated to the 50-character column length (`None`
only for an empty message, which never occurs), and set `next_run_at` from
the live cron job's next fire time when the job is registered and has one;
when the row is gone, nothing is persisted. -/
def update_schedule_status (schedule : Option ScheduleRow) (success : Bool)
    (error : Option String) (now : Int) (jobNextRunTime : Option Int) :
    Option ScheduleRow :=
  match schedule with
  | none => none
  | some s =>
    let status_msg := if success then "success" else "failed: " ++ pyStr error
    some { s with
      last_run_at := some now,
      last_run_status :=
        if status_msg.isEmpty then none else some (status_msg.take 50),
      next_run_at := match jobNextRunTime with
        | some t => some t
        | none => s.next_run_at }

/-- The possible outcomes of the action body of one scheduled fire:
the action completed, the SCALE path set a soft error message without
raising, or an exception was raised somewhere in the try body. -/
inductive FireResult where
  | ok
  | softFail (msg : String)
  | exn (msg : String)
deriving DecidableEq, Repr

/-- `SchedulerManager._execute_schedule` (scheduler.py lines 109-228),
status-persistence effect of one fire.  When the tenant row is missing the
fire records `failed: Tenant not found`; otherwise the outcome of the
action determines `success`/`error` for `_update_schedule_status`; the
`except` branch (lines 222-228) catches any exception and records its
string the same way, so the function is total — a fire never propagates an
exception into the engine.  `jobs` is the set of registered job ids; the
function never removes a job, so it is returned unchanged. -/
def execute_schedule (schedule : Option ScheduleRow) (tenantFound : Bool)
    (result : FireResult) (now : Int) (jobNextRunTime : Option Int)
    (jobs : List Nat) : Option ScheduleRow × List Nat :=
  if tenantFound = false then
    (update_schedule_status schedule false (some "Tenant not found") now jobNextRunTime,
     jobs)
  else
    match result with
    | FireResult.ok =>
      (update_schedule_status schedule true none now jobNextRunTime, jobs)
    | FireResult.softFail m =>
      (update_schedule_status schedule false (some m) now jobNextRunTime, jobs)
    | FireResult.exn m =>
      (update_schedule_status schedule false (some m) now jobNextRunTime, jobs)

/-- The status message a fire produces before truncation. -/
def fireStatusMsg (tenantFound : Bool) (result : FireResult) : String :=
  if tenantFound = false then "failed: Tenant not found"
  else match result with
    | FireResult.ok => "success"
    | FireResult.softFail m => "failed: " ++ m
    | FireResult.exn m => "failed: " ++ m

end ManageAWS

namespace ManageAWS

/-- Claim C1: for every ReplicaWorkload (Deployment or StatefulSet) with
current replica count N > 0, scaling it to 0 and then scaling with any
positive target restores the replica count to exactly N, independent of the
target supplied to the start call: the original count is persisted into the
resource annotation before the scale-to-0, and a scale-up from 0 overrides
the caller-supplied target with the stored value. -/
theorem replica_stop_start_restores (d s : ReplicaWorkload) (r : Nat)
    (hd : 0 < d.replicas) (hs : 0 < s.replicas) (hr : 0 < r) :
    (scale_deployment (scale_deployment d 0) r).replicas = d.replicas
      ∧ (scale_statefulset (scale_statefulset s 0) r).replicas = s.replicas := by
  constructor
  · simp only [scale_deployment, hd, Nat.lt_irrefl, and_true, and_false, if_true, if_false,
      Nat.pos_iff_ne_zero.mp hr, reduceIte]
    simp [hd, Nat.pos_iff_ne_zero.mp hr, hr]
  · simp only [scale_statefulset]
    simp [hs, Nat.pos_iff_ne_zero.mp hr, hr]

/-- Witness for C1 at a concrete input: a deployment at 3 replicas and a
statefulset at 2 replicas, stopped and restarted with target 1. -/
theorem replica_stop_start_restores_witness :
    0 < (ReplicaWorkload.mk 3 none).replicas ∧ 0 < (ReplicaWorkload.mk 2 none).replicas
      ∧ 0 < 1
      ∧ ((scale_deployment (scale_deployment (ReplicaWorkload.mk 3 none) 0) 1).replicas
            = (ReplicaWorkload.mk 3 none).replicas
        ∧ (scale_statefulset (scale_statefulset (ReplicaWorkload.mk 2 none) 0) 1).replicas
            = (ReplicaWorkload.mk 2 none).replicas) :=
  ⟨by decide, by decide, by decide,
    replica_stop_start_restores (ReplicaWorkload.mk 3 none) (ReplicaWorkload.mk 2 none) 1
      (by decide) (by decide) (by decide)⟩

/-- Claim C4: stopping then starting a DaemonWorkload restores its exact
original pod-placement selector: stop saves the existing selector (or the
empty marker when none/empty existed) and installs the unsatisfiable
selector; start restores the saved selector, or sets the selector to
nil/absent (not an empty map) when the saved value was the empty marker,
and deletes the annotation in either case. -/
theorem daemon_stop_start_restores (ds : DaemonWorkload) :
    (scale_daemonset ds true).nodeSelector = some stopSelector
      ∧ (scale_daemonset (scale_daemonset ds true) false).nodeSelector
          = (if selTruthy ds.nodeSelector then ds.nodeSelector else none)
      ∧ (scale_daemonset (scale_daemonset ds true) false).origSelectorAnn = none := by
  refine ⟨by simp [scale_daemonset], ?_, ?_⟩
  · cases h : ds.nodeSelector with
    | none => simp [scale_daemonset, selTruthy, h]
    | some sel =>
      cases sel with
      | nil => simp [scale_daemonset, selTruthy, h]
      | cons p rest => simp [scale_daemonset, selTruthy, h]
  · cases h : ds.nodeSelector with
    | none => simp [scale_daemonset, h]
    | some sel =>
      cases sel with
      | nil => simp [scale_daemonset, h]
      | cons p rest => simp [scale_daemonset, h]

/-- Claim C9 (code defect): stopping an already-stopped DaemonWorkload is
not a no-op in effect.  The second stop overwrites the saved original
selector annotation with the unsatisfiable stop selector (the code stores
whatever `node_selector` currently holds, which is the stop selector), so a
subsequent start restores the stop selector instead of the original one,
while a single stop followed by a start does restore the original. -/
theorem daemon_double_stop_clobbers_original :
    (scale_daemonset (scale_daemonset (scale_daemonset dsExample true) true) false).nodeSelector
        = some stopSelector
      ∧ (scale_daemonset (scale_daemonset dsExample true) false).nodeSelector
        = some [("disk", "ssd")]
      ∧ (some stopSelector : Option (List (String × String))) ≠ some [("disk", "ssd")] := by
  refine ⟨by decide, by decide, by decide⟩

/-- Claim C3: for every namespace scale over resources A, B, C of recognised
kinds where scaling B fails (its underlying call raises) and A and C
succeed, the call does not raise and its report contains, in order, a
success entry for A, a failure entry carrying the error message for B, and
a success entry for C: the batch is best effort and resources after the
failing one are still processed. -/
theorem scale_namespace_best_effort (ns : String) (replicas : Nat)
    (A B C : WorkloadRef) (eB : String)
    (outcome : WorkloadRef → Except String Unit)
    (hA : outcome A = .ok ()) (hB : outcome B = .error eB) (hC : outcome C = .ok ())
    (htA : A.rtype = "Deployment" ∨ A.rtype = "StatefulSet" ∨ A.rtype = "DaemonSet")
    (htB : B.rtype = "Deployment" ∨ B.rtype = "StatefulSet" ∨ B.rtype = "DaemonSet")
    (htC : C.rtype = "Deployment" ∨ C.rtype = "StatefulSet" ∨ C.rtype = "DaemonSet") :
    scale_namespace ns replicas (.ok [A, B, C]) outcome =
      .ok { ns := ns, target_replicas := replicas, total_resources := 3,
            results :=
              [{ resource := A.name, rtype := A.rtype, success := true,
                 replicas := if A.rtype = "DaemonSet" then none else some replicas,
                 error := none },
               { resource := B.name, rtype := B.rtype, success := false,
                 replicas := none, error := some eB },
               { resource := C.name, rtype := C.rtype, success := true,
                 replicas := if C.rtype = "DaemonSet" then none else some replicas,
                 error := none }] } := by
  unfold scale_namespace
  simp only [List.foldl_cons, List.foldl_nil]
  rw [if_pos htA, hA, if_pos htB, hB, if_pos htC, hC]
  simp

/-- Witness for C3 at a concrete input: three resources where exactly the
second one fails with message `boom`. -/
theorem scale_namespace_best_effort_witness :
    scale_namespace "acme" 0
        (.ok [⟨"a", "Deployment"⟩, ⟨"b", "StatefulSet"⟩, ⟨"c", "DaemonSet"⟩])
        (fun w => if w.name == "b" then .error "boom" else .ok ()) =
      .ok { ns := "acme", target_replicas := 0, total_resources := 3,
            results := [⟨"a", "Deployment", true, some 0, none⟩,
                        ⟨"b", "StatefulSet", false, none, some "boom"⟩,
                        ⟨"c", "DaemonSet", true, none, none⟩] } :=
  (scale_namespace_best_effort "acme" 0 ⟨"a", "Deployment"⟩ ⟨"b", "StatefulSet"⟩
      ⟨"c", "DaemonSet"⟩ "boom"
      (fun w => if w.name == "b" then .error "boom" else .ok ())
      rfl rfl rfl (Or.inl rfl) (Or.inr (Or.inl rfl)) (Or.inr (Or.inr rfl))).trans
    rfl

/-- Claim C8, counterexample: when the namespace does not exist and the
underlying list call raises an ApiException with status 404, the inventory
does not fail with NotFound: the handler at k8s_client.py lines 423-426
catches the 404 and returns an empty list, exactly the value it returns for
an existing-but-empty namespace. -/
theorem inventory_missing_namespace_not_an_error :
    list_namespace_deployments (.error ⟨404⟩) = .ok [] := rfl

/-- Claim C8 as amended: the workload inventory returns an empty list both
when the namespace does not exist (the 404 from the list API is caught) and
when the namespace exists but holds no workloads; only a non-404 API error
is re-raised.  NotFound for a missing namespace is surfaced by the
tenant-level operations, which check namespace existence separately, not by
the inventory. -/
theorem inventory_empty_vs_missing :
    (∀ e : ApiError, list_namespace_deployments (.error e)
        = if e.status = 404 then .ok [] else .error e)
      ∧ list_namespace_deployments (.ok ⟨[], [], []⟩) = .ok [] :=
  ⟨fun _ => rfl, rfl⟩

/-- Helper: for a present previous replica count, the recorder's
previous-state derivation coincides with its destination-state derivation
applied to that count — both use the coarse 0-vs-positive rule. -/
theorem record_previous_state_eq (p : Nat) :
    record_previous_state (some p) = some (record_new_state p) := by
  by_cases h : p = 0 <;> simp [record_previous_state, record_new_state, h]

/-- Claim C6, counterexample: the fine-grained rule of the spec maps
`new_replicas = 3` with 1 of 3 ready to `scaling`, but the recorder derives
the destination state from `new_replicas` alone and yields `running` there
(readiness is not an input of `_record_state_change` at all). -/
theorem recorder_destination_counterexample :
    spec_new_state true 3 1 3 = StateType.scaling
      ∧ record_new_state 3 = StateType.running
      ∧ StateType.running ≠ StateType.scaling := by decide

/-- Claim C6 as amended: the recorder derives BOTH sides of a transition by
the coarse 0-vs-positive rule; the destination state it emits is never
`scaling` and never `unknown`, and the previous-side derivation (for a
present count) agrees with the destination-side derivation. -/
theorem recorder_both_sides_coarse :
    (∀ n : Nat, record_new_state n ≠ StateType.scaling
        ∧ record_new_state n ≠ StateType.unknown)
      ∧ (∀ p : Nat, record_previous_state (some p) = some (record_new_state p)) := by
  constructor
  · intro n
    by_cases h : n = 0 <;> simp [record_new_state, h]
  · exact record_previous_state_eq

/-- Claim C7, counterexample: registering a schedule for a fresh namespace
auto-creates the tenant row (with the column default `current_replicas = 0`)
and writes no transition; a subsequent scale to 0 of that tenant — its
first-ever scale, with an empty transition log — appends nothing, because
the recorder's condition tests row existence (`previous_replicas is None`),
not transition-log emptiness: `previous_replicas` is read as 0 from the
pre-existing row, both derived states are `stopped`, and the record is
suppressed. -/
theorem first_record_suppressed_counterexample :
    (create_schedule_db dbEmpty "acme" 1).history = []
      ∧ (scale_tenant_db (create_schedule_db dbEmpty "acme" 1) "acme" 0 "alice" 100 2).history
          = [] := by decide

/-- Claim C7 as amended: a transition record is appended iff the derived new
state differs from the derived previous state, OR the tenant row did not
exist before the scale (in which case a record is always written).  For a
pre-existing row the previous side is derived from the row's
`current_replicas`, so a tenant row auto-created earlier (e.g. by schedule
registration) gets its first record only when the derived states differ. -/
theorem record_appended_iff_states_differ_or_row_absent (db : Db)
    (ns userSub : String) (replicas : Nat) (now : Int) (newId : Nat) :
    (match db.tenants.find? (fun t => t.ns == ns) with
     | none =>
        (scale_tenant_db db ns replicas userSub now newId).history.length
          = db.history.length + 1
     | some row =>
        if record_new_state row.current_replicas = record_new_state replicas
        then (scale_tenant_db db ns replicas userSub now newId).history = db.history
        else (scale_tenant_db db ns replicas userSub now newId).history.length
          = db.history.length + 1) := by
  cases h : db.tenants.find? (fun t => t.ns == ns) with
  | none => simp [scale_tenant_db, h, record_state_change, record_previous_state]
  | some row =>
    by_cases he : record_new_state row.current_replicas = record_new_state replicas
    · simp only [he, if_true, reduceIte]
      simp [scale_tenant_db, h, record_state_change, record_previous_state_eq, he]
    · simp only [he, if_false]
      simp [scale_tenant_db, h, record_state_change, record_previous_state_eq, he]

/-- Claim C10: for a scale of a namespace whose tenant row already exists,
the appended transition record (when one is appended) stores the
caller-supplied target in `new_replicas` — not the count actually applied
to the cluster, which restore-on-start may have overridden with the stored
original count — while `previous_replicas` is read from the row's
`current_replicas` column; and the scale rewrites the row touching only
`last_scaled_at`/`last_scaled_by`, leaving `current_replicas` unchanged. -/
theorem record_stores_caller_target (d : ReplicaWorkload) (db : Db)
    (row : TenantRow) (ns userSub : String) (target N : Nat) (now : Int)
    (newId : Nat) (hcur : d.replicas = 0) (hann : d.origReplicasAnn = some N)
    (ht : 0 < target)
    (hfind : db.tenants.find? (fun t => t.ns == ns) = some row) :
    (scale_deployment d target).replicas = N
      ∧ ((scale_tenant_db db ns target userSub now newId).history = db.history
        ∨ (scale_tenant_db db ns target userSub now newId).history
            = db.history ++
              [{ tenant_id := row.id,
                 previous_state := record_previous_state (some row.current_replicas),
                 new_state := record_new_state target,
                 previous_replicas := some row.current_replicas,
                 new_replicas := target, changed_at := now, changed_by := userSub,
                 reason := "Scale to " ++ toString target ++ " replicas" }])
      ∧ (scale_tenant_db db ns target userSub now newId).tenants
          = db.tenants.map (fun t => if t.id == row.id
              then stamp_scaled row now userSub else t)
      ∧ (stamp_scaled row now userSub).current_replicas = row.current_replicas := by
  refine ⟨?_, ?_, ?_, rfl⟩
  · simp [scale_deployment, hcur, hann, ht, Nat.pos_iff_ne_zero.mp ht]
  · unfold scale_tenant_db
    rw [hfind]
    unfold record_state_change
    by_cases hc : (record_previous_state (some row.current_replicas)
          ≠ some (record_new_state target)
        ∨ record_previous_state (some row.current_replicas) = none)
    · right
      simp only [hc, if_true, reduceIte]
    · left
      simp only [hc, if_false, reduceIte]
  · unfold scale_tenant_db
    rw [hfind]

/-- Helper: on a history with ascending `changed_at`, the initial-state scan
returns the `new_state` of the last record strictly before the window start,
or the carried value when no record lies strictly before it. -/
theorem findInitialAux_sorted (ws : Int) :
    ∀ (l : List StateRecord) (prev : Option StateType),
      l.Pairwise (fun a b => a.changed_at ≤ b.changed_at) →
      findInitialAux prev ws l =
        (match (l.filter (fun s => decide (s.changed_at < ws))).getLast? with
         | some last => some last.new_state
         | none => prev)
  | [], _, _ => rfl
  | s :: rest, prev, h => by
    rw [List.pairwise_cons] at h
    obtain ⟨hhead, hrest⟩ := h
    by_cases hs : ws ≤ s.changed_at
    · have hfilter : rest.filter (fun x => decide (x.changed_at < ws)) = [] := by
        refine List.filter_eq_nil_iff.mpr ?_
        intro a ha
        have := hhead a ha
        simp only [decide_eq_true_eq]
        omega
      have hall : (s :: rest).filter (fun x => decide (x.changed_at < ws)) = [] := by
        rw [List.filter_cons]
        have : ¬ s.changed_at < ws := by omega
        simp [this, hfilter]
      rw [hall]
      simp [findInitialAux, hs]
    · have hlt : s.changed_at < ws := by omega
      have hcons : (s :: rest).filter (fun x => decide (x.changed_at < ws))
          = s :: rest.filter (fun x => decide (x.changed_at < ws)) := by
        rw [List.filter_cons]
        simp [hlt]
      rw [hcons]
      have hstep : findInitialAux prev ws (s :: rest)
          = findInitialAux (some s.new_state) ws rest := by
        simp [findInitialAux, hs]
      rw [hstep, findInitialAux_sorted ws rest (some s.new_state) hrest]
      cases hrf : rest.filter (fun x => decide (x.changed_at < ws)) with
      | nil => rfl
      | cons y ys =>
        rw [List.getLast?_cons_cons]
        cases hg : (y :: ys).getLast? with
        | none => simp at hg
        | some z => simp only [hg]

/-- Claim C2, counterexample: for the transition log of the scenario
(`running` at t0 with 3 replicas, `stopped` at t0 + 2h) and the window
[t0 - 1h, t0 + 5h], the report's uptimeSeconds is 7200 (the 2 hours from t0
to t0 + 2h), not the 10800 the claim expects, and downtimeSeconds is 14400
(the hour before t0 spent in the default `stopped` state plus the 3 hours
after the stop), not 10800. -/
theorem monthly_report_scenario_counterexample :
    (get_monthly_uptime_downtime c2history (-3600) 18000).uptime_seconds = 7200
      ∧ (get_monthly_uptime_downtime c2history (-3600) 18000).downtime_seconds = 14400
      ∧ (7200 : Int) ≠ 10800 := by
  refine ⟨by decide, by decide, by decide⟩

/-- Claim C2 as amended: for the scenario's transition log and the 21600 s
window [t0 - 1h, t0 + 5h], the monthly report returns uptimeSeconds = 7200,
downtimeSeconds = 14400 and percentages 33.33/66.67; and in general (for an
ascending history) the state in effect at windowStart is the `new_state` of
the last transition strictly before windowStart, defaulting to `stopped`
when every transition falls on or after windowStart. -/
theorem monthly_report_scenario_amended :
    ((get_monthly_uptime_downtime c2history (-3600) 18000).uptime_seconds = 7200
      ∧ (get_monthly_uptime_downtime c2history (-3600) 18000).downtime_seconds = 14400
      ∧ (get_monthly_uptime_downtime c2history (-3600) 18000).scaling_seconds = 0
      ∧ (get_monthly_uptime_downtime c2history (-3600) 18000).uptime_percentage = 3333/100
      ∧ (get_monthly_uptime_downtime c2history (-3600) 18000).downtime_percentage = 6667/100
      ∧ (get_monthly_uptime_downtime c2history (-3600) 18000).total_seconds = 21600)
    ∧ (∀ (hist : List StateRecord) (ws : Int),
        hist.Pairwise (fun a b => a.changed_at ≤ b.changed_at) →
        (findInitialState hist ws).getD StateType.stopped =
          (match (hist.filter (fun s => decide (s.changed_at < ws))).getLast? with
           | some last => last.new_state
           | none => StateType.stopped)) := by
  constructor
  · refine ⟨by decide, by decide, by decide, ?_, ?_, by decide⟩
    · have hb : monthly_buckets
          (List.filter (fun s => decide (s.changed_at ≤ 18000)) c2history) (-3600) 18000
          = ⟨7200, 14400, 0⟩ := by decide
      have hne : (List.filter (fun s => decide (s.changed_at ≤ 18000)) c2history).isEmpty = false := by decide
      unfold get_monthly_uptime_downtime
      simp only [hb, hne, Bool.false_eq_true, if_false]
      norm_num [round2, round_eq]
    · have hb : monthly_buckets
          (List.filter (fun s => decide (s.changed_at ≤ 18000)) c2history) (-3600) 18000
          = ⟨7200, 14400, 0⟩ := by decide
      have hne : (List.filter (fun s => decide (s.changed_at ≤ 18000)) c2history).isEmpty = false := by decide
      unfold get_monthly_uptime_downtime
      simp only [hb, hne, Bool.false_eq_true, if_false]
      norm_num [round2, round_eq]
  · intro hist ws h
    rw [findInitialState, findInitialAux_sorted ws hist none h]
    cases hg : (hist.filter (fun s => decide (s.changed_at < ws))).getLast? with
    | none => rfl
    | some last => rfl

/-- Witness for C2 as amended, at a concrete sorted history: with the
scenario log and a window starting at t0 + 2h, the state in effect at the
window start is `running`, the `new_state` of the last transition strictly
before it. -/
theorem monthly_report_scenario_amended_witness :
    (findInitialState c2history 7200).getD StateType.stopped = StateType.running := by
  have h := monthly_report_scenario_amended.2 c2history 7200 (by decide)
  rw [h]
  decide

/-- Witness for C10 at a concrete input: a deployment stopped at 0 replicas
with stored original count 5, a pre-existing tenant row with
`current_replicas = 0`, and a start call with target 1: the cluster receives
5 replicas, the record says `new_replicas = 1`, and the row keeps
`current_replicas = 0`. -/
theorem record_stores_caller_target_witness :
    (scale_deployment ⟨0, some 5⟩ 1).replicas = 5
      ∧ ((scale_tenant_db ⟨[⟨1, "acme", "acme", 0, 1, none, none⟩], []⟩
            "acme" 1 "alice" 100 7).history = []
        ∨ (scale_tenant_db ⟨[⟨1, "acme", "acme", 0, 1, none, none⟩], []⟩
            "acme" 1 "alice" 100 7).history
            = [⟨1, some StateType.stopped, StateType.running, some 0, 1, 100,
                "alice", "Scale to " ++ toString 1 ++ " replicas"⟩])
      ∧ (scale_tenant_db ⟨[⟨1, "acme", "acme", 0, 1, none, none⟩], []⟩
            "acme" 1 "alice" 100 7).tenants
          = [⟨1, "acme", "acme", 0, 1, some 100, some "alice"⟩] := by
  have h := record_stores_caller_target ⟨0, some 5⟩
    ⟨[⟨1, "acme", "acme", 0, 1, none, none⟩], []⟩
    ⟨1, "acme", "acme", 0, 1, none, none⟩ "acme" "alice" 1 5 100 7
    rfl rfl (by decide) rfl
  refine ⟨h.1, ?_, ?_⟩
  · rcases h.2.1 with h1 | h1
    · exact Or.inl h1
    · refine Or.inr (h1.trans ?_)
      decide
  · refine h.2.2.1.trans ?_
    decide

/-- Helper: a status message with the `failed: ` prepended text is never
the empty string, so the truncated message is always stored. -/
theorem failed_prefix_not_empty (m : String) : ("failed: " ++ m) ≠ "" := by
  intro h
  have hl := congrArg String.length h
  rw [String.length_append] at hl
  have h8 : ("failed: ").length = 8 := rfl
  have h0 : ("" : String).length = 0 := rfl
  omega

/-- Claim C5: after every fire of a schedule whose row still exists, the
row is persisted with `last_run_at` set to the execution time,
`last_run_status` equal to `success` when the action succeeded and to
`failed: <reason>` truncated to the 50-character column length otherwise
(including when the fire raised an exception: the except branch catches it
and records its message the same way, without crashing the engine), and
`next_run_at` set from the cron trigger's next fire time when the job is
live; the registered job set is unchanged, so the schedule is not
deregistered by a failure. -/
theorem schedule_fire_persists (s : ScheduleRow) (tenantFound : Bool)
    (result : FireResult) (now : Int) (jobNext : Option Int) (jobs : List Nat) :
    ∃ s1, execute_schedule (some s) tenantFound result now jobNext jobs = (some s1, jobs)
      ∧ s1.last_run_at = some now
      ∧ s1.last_run_status = some ((fireStatusMsg tenantFound result).take 50)
      ∧ s1.next_run_at = (match jobNext with | some t => some t | none => s.next_run_at)
      ∧ fireStatusMsg true FireResult.ok = "success" := by
  cases tenantFound with
  | false =>
    refine ⟨_, rfl, rfl, ?_, rfl, rfl⟩
    simp [execute_schedule, update_schedule_status, fireStatusMsg, pyStr,
      String.isEmpty_iff]
  | true =>
    cases result with
    | ok =>
      refine ⟨_, rfl, rfl, ?_, rfl, rfl⟩
      simp [execute_schedule, update_schedule_status, fireStatusMsg,
        String.isEmpty_iff]
    | softFail m =>
      refine ⟨_, rfl, rfl, ?_, rfl, rfl⟩
      simp [execute_schedule, update_schedule_status, fireStatusMsg, pyStr,
        String.isEmpty_iff]
      exact failed_prefix_not_empty m
    | exn m =>
      refine ⟨_, rfl, rfl, ?_, rfl, rfl⟩
      simp [execute_schedule, update_schedule_status, fireStatusMsg, pyStr,
        String.isEmpty_iff]
      exact failed_prefix_not_empty m

end ManageAWS
